import Mathlib

/-!
Shallow embedding of the Token Quest frontend core (frontend/script.js):
the wallet session state, the progression ledger (XP and levels), the
bounded quest log, and the swap submission and execution pipeline.

Modelling conventions:
- JS strings are Lean `String`s; JS string truthiness is nonemptiness.
- Progression numbers (`currentXP`, `currentLevel`, awarded XP) are `Nat`,
  matching the unsigned quantities the code manipulates on these paths.
- The `parseInt` path of `loadSavedState` can produce JS `NaN`; that path
  is modelled with `Option Int`, where `none` stands for `NaN`.
- External collaborators (the wallet provider, the backend reached with
  `fetch`, `JSON.parse`, `Date.toISOString`) are modelled as explicit
  inputs to the functions that consume them; a `fetch` that rejects or a
  `JSON.parse` that throws is an explicit error value.
- DOM state that the code treats as business state (the network status
  banner written by `updateNetworkStatus`) is a boolean field.
-/

namespace TokenQuest

/-- `CONFIG.CHAIN_ID` from script.js: the required BSC Testnet chain id. -/
def chainIdConst : String := "0x61"

/-- One entry of the `CONFIG.TOKENS` registry. -/
structure TokenInfo where
  address : String
  symbol : String
  name : String
  decimals : Nat
deriving DecidableEq

/-- `CONFIG.TOKENS`: the static token registry, keyed by symbol. -/
def TOKENS : List (String × TokenInfo) :=
  [("WBNB", ⟨"0xae13d989daC2f0dEbFf460aC112a837C89BAa7cd", "WBNB", "Wrapped BNB", 18⟩),
   ("BUSD", ⟨"0x78867BbEeF44f2326bF8DDd1941a4439382EF2A7", "BUSD", "Binance USD", 18⟩)]

/-- JS truthiness of a string: a string is truthy iff it is nonempty. -/
def truthy (s : String) : Bool := !s.isEmpty

/-- JS `String.prototype.toLowerCase` on the ASCII strings involved:
lower-case every character.  (Defined through the character list so that
it evaluates inside proofs; extensionally `String.toLower`.) -/
def toLowerCase (s : String) : String := String.mk (s.data.map Char.toLower)

/-- `getTokenSymbolByAddress`: scan the registry for a case-insensitive
address match, returning the symbol key, or `none` (JS `null`). -/
def getTokenSymbolByAddress (address : String) : Option String :=
  (TOKENS.find? fun p => toLowerCase p.2.address == toLowerCase address).map fun p => p.1

/-- A quest log entry as built by `handleSwapSuccess`.  `fromToken` and
`toToken` hold `getTokenSymbolByAddress` results (JS `null` is `none`). -/
structure QuestEntry where
  type : String
  fromToken : Option String
  toToken : Option String
  amount : String
  xpEarned : Nat
  timestamp : String
  txHash : Option String
deriving DecidableEq

/-- The mutable `AppState` object of script.js.  `web3` records whether the
`web3` field is non-null; `networkCompliant` is the network status banner
written by `updateNetworkStatus` (true = connected to BSC Testnet). -/
structure AppStateL where
  web3 : Bool
  account : Option String
  isConnected : Bool
  networkCompliant : Bool
  currentLevel : Nat
  currentXP : Nat
  questLog : List QuestEntry
deriving DecidableEq

/-- `addXP(amount)`: add to `currentXP`, recompute a candidate level as
`floor(currentXP / 100) + 1`, and only when the candidate strictly exceeds
the old level assign it and fire `showLevelUpEffect`.  The returned boolean
records whether the level-up effect was shown. -/
def addXP (s : AppStateL) (amount : Nat) : AppStateL × Bool :=
  let oldLevel := s.currentLevel
  let xp := s.currentXP + amount
  let newLevel := xp / 100 + 1
  if oldLevel < newLevel then
    ({ s with currentXP := xp, currentLevel := newLevel }, true)
  else
    ({ s with currentXP := xp }, false)

/-- `addToQuestLog(entry)`: `unshift` the entry (newest first), then keep
only the first 10 entries (`slice(0, 10)`) when the log exceeds 10. -/
def addToQuestLog (s : AppStateL) (entry : QuestEntry) : AppStateL :=
  let log := entry :: s.questLog
  { s with questLog := if 10 < log.length then log.take 10 else log }

/-- The JSON body of a response from the backend `/api/execute-swap`
endpoint, with optional fields as `Option`. -/
structure ExecResponse where
  success : Bool
  error : Option String
  xp_earned : Option Nat
  transaction_hash : Option String
  message : Option String
deriving DecidableEq

/-- The `formData` object assembled by `handleSwapSubmission` from the
form fields. -/
structure SwapForm where
  fromToken : String
  toToken : String
  amount : String
  slippage : String
deriving DecidableEq

/-- The JS expression `result.xp_earned || 10`: any falsy value of
`xp_earned` (absent, or the number 0) falls back to the base value 10. -/
def xpFromResponse (r : ExecResponse) : Nat :=
  match r.xp_earned with
  | some n => if n = 0 then 10 else n
  | none => 10

/-- `handleSwapSuccess(result, formData)`: award `result.xp_earned || 10`
XP through `addXP`, then prepend a quest log entry recording the same
amount.  `now` is the external `new Date().toISOString()` value. -/
def handleSwapSuccess (s : AppStateL) (result : ExecResponse)
    (formData : SwapForm) (now : String) : AppStateL :=
  let xpEarned := xpFromResponse result
  let s1 := (addXP s xpEarned).1
  addToQuestLog s1
    { type := "swap"
      fromToken := getTokenSymbolByAddress formData.fromToken
      toToken := getTokenSymbolByAddress formData.toToken
      amount := formData.amount
      xpEarned := xpEarned
      timestamp := now
      txHash := result.transaction_hash }

/-- The outcome of one `executeSwap` run: success flag plus, for failures,
the message shown by the `Swap failed:` notification. -/
structure SwapOutcomeL where
  success : Bool
  reason : Option String
deriving DecidableEq

/-- The JS expression `result.error || dflt`: a missing or empty error
string falls back to the default message. -/
def jsErrOr (e : Option String) (dflt : String) : String :=
  match e with
  | some m => if m.isEmpty then dflt else m
  | none => dflt

/-- `executeSwap(formData)`: call the backend; on `result.success` run
`handleSwapSuccess`, otherwise throw `result.error || 'Swap failed'`,
which the surrounding catch turns into a failure notification.
`fetchResult` is the external network interaction: `Except.error m` models
the `fetch`/`json()`/`toWei` path throwing with message `m`.  The
`finally` block touches only DOM visibility classes. -/
def executeSwap (s : AppStateL) (formData : SwapForm) (now : String)
    (fetchResult : Except String ExecResponse) : AppStateL × SwapOutcomeL :=
  match fetchResult with
  | Except.ok result =>
    if result.success then
      (handleSwapSuccess s result formData now, ⟨true, none⟩)
    else
      (s, ⟨false, some (jsErrOr result.error "Swap failed")⟩)
  | Except.error m => (s, ⟨false, some m⟩)

/-- The synchronous validation of `handleSwapSubmission`, in source
order: wallet connected, all three fields truthy (nonempty), tokens
distinct.  Returns the notification message of the first failing check,
or `none` when the submission proceeds to `executeSwap`. -/
def submissionCheck (s : AppStateL) (f : SwapForm) : Option String :=
  if !s.isConnected then some "Please connect your wallet first!"
  else if !(truthy f.fromToken) || !(truthy f.toToken) || !(truthy f.amount) then
    some "Please fill all required fields!"
  else if f.fromToken = f.toToken then some "Please select different tokens!"
  else none

/-- `handleSwapSubmission(event)` as a whole: run the synchronous checks;
on rejection show a notification and stop, otherwise run `executeSwap`.
The final boolean records whether the execute service was contacted. -/
def handleSwapSubmission (s : AppStateL) (f : SwapForm) (now : String)
    (fetchResult : Except String ExecResponse) :
    AppStateL × Option SwapOutcomeL × Bool :=
  match submissionCheck s f with
  | some _ => (s, none, false)
  | none =>
    let r := executeSwap s f now fetchResult
    (r.1, some r.2, true)

/-- `disconnectWallet()`: local reset of the session fields. -/
def disconnectWallet (s : AppStateL) : AppStateL :=
  { s with web3 := false, account := none, isConnected := false }

/-- The network-compliance value produced by `verifyNetwork()`:
`walletChainId` is the wallet's reported chain; when it differs from the
required chain, `switchOk` is the outcome of the external
`switchToBSCTestnet()` attempt (switch or add succeeding). -/
def verifyNetworkResult (walletChainId : String) (switchOk : Bool) : Bool :=
  if walletChainId = chainIdConst then true else switchOk

/-- `connectWallet(account)`: set `web3`, `account` and `isConnected`,
then run network verification. -/
def connectWallet (s : AppStateL) (account : String) (walletChainId : String)
    (switchOk : Bool) : AppStateL :=
  { s with web3 := true, account := some account, isConnected := true,
           networkCompliant := verifyNetworkResult walletChainId switchOk }

/-- `handleAccountsChanged(accounts)`: empty list disconnects; otherwise
reconnect with the first account. -/
def handleAccountsChanged (s : AppStateL) (accounts : List String)
    (walletChainId : String) (switchOk : Bool) : AppStateL :=
  match accounts with
  | [] => disconnectWallet s
  | a :: _ => connectWallet s a walletChainId switchOk

/-- `handleChainChanged(chainId)`: re-evaluate the network banner against
the required chain id; nothing else is touched. -/
def handleChainChanged (s : AppStateL) (chainId : String) : AppStateL :=
  { s with networkCompliant := chainId == chainIdConst }

/-- Value of a decimal digit run, most significant first. -/
def digitsToInt (ds : List Char) : Int :=
  ds.foldl (fun a c => a * 10 + Int.ofNat (c.toNat - 48)) 0

/-- The JS builtin `parseInt(s)` (decimal case): skip leading whitespace,
consume an optional sign, then the longest leading digit run; no digits
yields `NaN`, modelled as `none`.  (The hexadecimal `0x` prefix form of
the builtin is irrelevant to the inputs considered here.) -/
def parseIntJS (s : String) : Option Int :=
  let cs := s.toList.dropWhile fun c => c == ' ' || c == '\t' || c == '\n' || c == '\r'
  let signed : Int × List Char :=
    match cs with
    | '-' :: rest => (-1, rest)
    | '+' :: rest => (1, rest)
    | _ => (1, cs)
  let ds := signed.2.takeWhile Char.isDigit
  if ds.isEmpty then none else some (signed.1 * digitsToInt ds)

/-- The progression fields as they stand after `loadSavedState`.  The XP
and level are `Option Int` because `parseInt` can produce `NaN` (`none`);
the in-memory defaults before loading are `some 0` and `some 1`. -/
structure LoadResult where
  currentXP : Option Int
  currentLevel : Option Int
  questLog : List QuestEntry
deriving DecidableEq

/-- `loadSavedState()`: read the three localStorage keys (absent is
`none`); a truthy stored string is fed to `parseInt` (XP, level) or
`JSON.parse` (quest log).  `parsedQuestLog` is the external `JSON.parse`
result for the quest log string, `none` meaning the parse throws; the
surrounding try/catch catches that throw after the XP and level
assignments already happened, so those survive and the quest log keeps
its default. -/
def loadSavedState (savedXP savedLevel savedQuestLog : Option String)
    (parsedQuestLog : Option (List QuestEntry)) : LoadResult :=
  let xp : Option Int :=
    match savedXP with
    | some s => if truthy s then parseIntJS s else some 0
    | none => some 0
  let level : Option Int :=
    match savedLevel with
    | some s => if truthy s then parseIntJS s else some 1
    | none => some 1
  let log : List QuestEntry :=
    match savedQuestLog with
    | some s =>
      if truthy s then
        match parsedQuestLog with
        | some l => l
        | none => []
      else []
    | none => []
  ⟨xp, level, log⟩

/-! ### Helper lemmas, shared across claim proofs -/

/-- `addXP` always adds the amount to `currentXP`. -/
lemma addXP_currentXP (s : AppStateL) (n : Nat) :
    (addXP s n).1.currentXP = s.currentXP + n := by
  by_cases hc : s.currentLevel < (s.currentXP + n) / 100 + 1
  · simp only [addXP, if_pos hc]
  · simp only [addXP, if_neg hc]

/-- The level stored by `addXP`, case by case on the level-up test. -/
lemma addXP_currentLevel (s : AppStateL) (n : Nat) :
    (addXP s n).1.currentLevel =
      if s.currentLevel < (s.currentXP + n) / 100 + 1 then
        (s.currentXP + n) / 100 + 1
      else s.currentLevel := by
  by_cases hc : s.currentLevel < (s.currentXP + n) / 100 + 1
  · simp only [addXP, if_pos hc]
  · simp only [addXP, if_neg hc]

/-- The level-up signal fires exactly when the recomputed level strictly
exceeds the stored one. -/
lemma addXP_signal (s : AppStateL) (n : Nat) :
    (addXP s n).2 = true ↔ s.currentLevel < (s.currentXP + n) / 100 + 1 := by
  by_cases hc : s.currentLevel < (s.currentXP + n) / 100 + 1
  · simp [addXP, hc]
  · simp [addXP, hc]

/-- `addXP` leaves the quest log alone. -/
lemma addXP_questLog (s : AppStateL) (n : Nat) :
    (addXP s n).1.questLog = s.questLog := by
  by_cases hc : s.currentLevel < (s.currentXP + n) / 100 + 1
  · simp only [addXP, if_pos hc]
  · simp only [addXP, if_neg hc]

/-- The quest log never exceeds 10 entries after `addToQuestLog`. -/
lemma addToQuestLog_length_le (s : AppStateL) (e : QuestEntry) :
    (addToQuestLog s e).questLog.length ≤ 10 := by
  unfold addToQuestLog
  simp only
  split
  · simp [List.length_take]
  · omega

/-- The entry just added is the head of the quest log. -/
lemma addToQuestLog_head (s : AppStateL) (e : QuestEntry) :
    (addToQuestLog s e).questLog.head? = some e := by
  unfold addToQuestLog
  simp only
  split
  · rw [show (10 : Nat) = 9 + 1 from rfl, List.take_succ_cons]
    rfl
  · rfl

/-! ### C1: the derived-level invariant after addXP -/

/-- C1 counterexample: from the state `{xpTotal := 0, level := 5}`
(a state with `xpTotal ≥ 0`, reachable by loading an independently stored
level), `addXP 10` leaves the level at 5, which differs from
`floor(10 / 100) + 1 = 1`, so the claim as stated is false. -/
theorem c1_claim_counterexample :
    ¬ ((addXP ⟨false, none, false, false, 5, 0, []⟩ 10).1.currentLevel
        = (addXP ⟨false, none, false, false, 5, 0, []⟩ 10).1.currentXP / 100 + 1) := by
  decide

/-- C1 (amended): after every `addXP` call the invariant
`level = floor(xpTotal / 100) + 1` holds, for every starting state whose
stored level does not already exceed the derived one (in particular every
state satisfying the invariant) and every awarded amount; inside `addXP`
the level is only ever assigned the derived value. -/
theorem c1_level_invariant_amended (s : AppStateL) (amount : Nat)
    (h : s.currentLevel ≤ s.currentXP / 100 + 1) :
    (addXP s amount).1.currentLevel
      = (addXP s amount).1.currentXP / 100 + 1 := by
  rw [addXP_currentXP, addXP_currentLevel]
  have hd : s.currentXP / 100 ≤ (s.currentXP + amount) / 100 :=
    Nat.div_le_div_right (Nat.le_add_right _ _)
  split <;> omega

/-- Witness for C1: a concrete state satisfying the hypothesis, with the
invariant checked after the call. -/
theorem c1_level_invariant_amended_witness :
    (AppStateL.currentLevel ⟨false, none, false, false, 1, 95, []⟩
        ≤ AppStateL.currentXP ⟨false, none, false, false, 1, 95, []⟩ / 100 + 1) ∧
    (addXP ⟨false, none, false, false, 1, 95, []⟩ 10).1.currentLevel
      = (addXP ⟨false, none, false, false, 1, 95, []⟩ 10).1.currentXP / 100 + 1 :=
  ⟨by decide, c1_level_invariant_amended ⟨false, none, false, false, 1, 95, []⟩ 10 (by decide)⟩

/-! ### C9: the level-up signal fires exactly on boundary crossings -/

/-- C9: from any starting state satisfying the level invariant, `addXP`
signals a level-up exactly when the award crosses a 100-point boundary
(the recomputed level exceeds the previous one), final XP is the sum, and
the final level is the derived one. -/
theorem c9_levelup_signal_iff_crossing (s : AppStateL) (n : Nat)
    (h : s.currentLevel = s.currentXP / 100 + 1) :
    ((addXP s n).2 = true ↔ s.currentXP / 100 < (s.currentXP + n) / 100) ∧
    (addXP s n).1.currentXP = s.currentXP + n ∧
    (addXP s n).1.currentLevel = (s.currentXP + n) / 100 + 1 := by
  have hd : s.currentXP / 100 ≤ (s.currentXP + n) / 100 :=
    Nat.div_le_div_right (Nat.le_add_right _ _)
  refine ⟨?_, addXP_currentXP s n, ?_⟩
  · rw [addXP_signal, h]
    omega
  · rw [addXP_currentLevel]
    split <;> omega

/-- Witness for C9, the spec example: `{xpTotal := 95, level := 1}` with
`addXP 10` yields `{xpTotal := 105, level := 2}` and a level-up signal. -/
theorem c9_levelup_signal_iff_crossing_witness :
    (AppStateL.currentLevel ⟨false, none, false, false, 1, 95, []⟩
        = AppStateL.currentXP ⟨false, none, false, false, 1, 95, []⟩ / 100 + 1) ∧
    (addXP ⟨false, none, false, false, 1, 95, []⟩ 10).1.currentXP = 105 ∧
    (addXP ⟨false, none, false, false, 1, 95, []⟩ 10).1.currentLevel = 2 ∧
    (addXP ⟨false, none, false, false, 1, 95, []⟩ 10).2 = true := by
  have h := c9_levelup_signal_iff_crossing ⟨false, none, false, false, 1, 95, []⟩ 10 (by decide)
  exact ⟨by decide, h.2.1, h.2.2, h.1.mpr (by decide)⟩

/-! ### C10: addXP never lowers the stored level -/

/-- C10: for every starting state (including ones whose stored level
exceeds the derived one) and every awarded amount, `addXP` never
decreases the level; the level changes exactly when the recomputed level
strictly exceeds the previous one, and in that case it becomes the
recomputed value. -/
theorem c10_level_never_decreases (s : AppStateL) (n : Nat) :
    s.currentLevel ≤ (addXP s n).1.currentLevel ∧
    ((addXP s n).1.currentLevel ≠ s.currentLevel ↔
      s.currentLevel < (s.currentXP + n) / 100 + 1) ∧
    (s.currentLevel < (s.currentXP + n) / 100 + 1 →
      (addXP s n).1.currentLevel = (s.currentXP + n) / 100 + 1) := by
  rw [addXP_currentLevel]
  split <;> omega

/-- Witness for C10: from `{xpTotal := 0, level := 5}` with `addXP 10`
the level stays at least 5, and the change condition is settled. -/
theorem c10_level_never_decreases_witness :
    AppStateL.currentLevel ⟨false, none, false, false, 5, 0, []⟩
      ≤ (addXP ⟨false, none, false, false, 5, 0, []⟩ 10).1.currentLevel ∧
    ¬ ((addXP ⟨false, none, false, false, 5, 0, []⟩ 10).1.currentLevel
        ≠ AppStateL.currentLevel ⟨false, none, false, false, 5, 0, []⟩) := by
  have h := c10_level_never_decreases ⟨false, none, false, false, 5, 0, []⟩ 10
  exact ⟨h.1, fun hc => absurd (h.2.1.mp hc) (by decide)⟩

/-! ### C6: the quest log is a bounded newest-first ring of capacity 10 -/

/-- C6: after any `addToQuestLog` call the log holds at most 10 entries
and the new entry is at the head (newest first); and from an empty log,
11 successive additions leave exactly the latest 10 in newest-first
order, the first addition having been evicted. -/
theorem c6_quest_log_bounded_ring (s : AppStateL)
    (e1 e2 e3 e4 e5 e6 e7 e8 e9 e10 e11 : QuestEntry)
    (h : s.questLog = []) :
    (∀ s1 : AppStateL, ∀ e : QuestEntry,
      (addToQuestLog s1 e).questLog.length ≤ 10) ∧
    (∀ s1 : AppStateL, ∀ e : QuestEntry,
      (addToQuestLog s1 e).questLog.head? = some e) ∧
    (([e1, e2, e3, e4, e5, e6, e7, e8, e9, e10, e11].foldl addToQuestLog s).questLog
      = [e11, e10, e9, e8, e7, e6, e5, e4, e3, e2]) := by
  refine ⟨fun s1 e => addToQuestLog_length_le s1 e,
          fun s1 e => addToQuestLog_head s1 e, ?_⟩
  obtain ⟨w, a, c, nc, lv, xp, ql⟩ := s
  simp only at h
  subst h
  simp [addToQuestLog, List.foldl]

/-- Witness for C6 at a concrete empty-log state and concrete entries. -/
theorem c6_quest_log_bounded_ring_witness :
    AppStateL.questLog ⟨false, none, false, false, 1, 0, []⟩ = [] ∧
    (([⟨"swap", none, none, "1", 10, "t1", none⟩, ⟨"swap", none, none, "2", 10, "t2", none⟩,
       ⟨"swap", none, none, "3", 10, "t3", none⟩, ⟨"swap", none, none, "4", 10, "t4", none⟩,
       ⟨"swap", none, none, "5", 10, "t5", none⟩, ⟨"swap", none, none, "6", 10, "t6", none⟩,
       ⟨"swap", none, none, "7", 10, "t7", none⟩, ⟨"swap", none, none, "8", 10, "t8", none⟩,
       ⟨"swap", none, none, "9", 10, "t9", none⟩, ⟨"swap", none, none, "10", 10, "t10", none⟩,
       ⟨"swap", none, none, "11", 10, "t11", none⟩].foldl
        addToQuestLog ⟨false, none, false, false, 1, 0, []⟩).questLog
      = [⟨"swap", none, none, "11", 10, "t11", none⟩, ⟨"swap", none, none, "10", 10, "t10", none⟩,
         ⟨"swap", none, none, "9", 10, "t9", none⟩, ⟨"swap", none, none, "8", 10, "t8", none⟩,
         ⟨"swap", none, none, "7", 10, "t7", none⟩, ⟨"swap", none, none, "6", 10, "t6", none⟩,
         ⟨"swap", none, none, "5", 10, "t5", none⟩, ⟨"swap", none, none, "4", 10, "t4", none⟩,
         ⟨"swap", none, none, "3", 10, "t3", none⟩, ⟨"swap", none, none, "2", 10, "t2", none⟩]) :=
  ⟨rfl,
   (c6_quest_log_bounded_ring ⟨false, none, false, false, 1, 0, []⟩
      ⟨"swap", none, none, "1", 10, "t1", none⟩ ⟨"swap", none, none, "2", 10, "t2", none⟩
      ⟨"swap", none, none, "3", 10, "t3", none⟩ ⟨"swap", none, none, "4", 10, "t4", none⟩
      ⟨"swap", none, none, "5", 10, "t5", none⟩ ⟨"swap", none, none, "6", 10, "t6", none⟩
      ⟨"swap", none, none, "7", 10, "t7", none⟩ ⟨"swap", none, none, "8", 10, "t8", none⟩
      ⟨"swap", none, none, "9", 10, "t9", none⟩ ⟨"swap", none, none, "10", 10, "t10", none⟩
      ⟨"swap", none, none, "11", 10, "t11", none⟩ rfl).2.2⟩

/-! ### C7: the XP awarded on a successful swap -/

/-- C7 counterexample: a successful response that provides
`xp_earned = 0` (a value the service contains) is awarded as 10 XP, both
in the ledger and in the new quest log entry, because the code computes
`result.xp_earned || 10` and 0 is falsy; the claim as stated requires the
award to equal the provided value 0. -/
theorem c7_claim_counterexample :
    ExecResponse.xp_earned ⟨true, none, some 0, some "0xtx", none⟩ = some 0 ∧
    (handleSwapSuccess ⟨true, some "0xabc", true, true, 1, 0, []⟩
        ⟨true, none, some 0, some "0xtx", none⟩
        ⟨"0xae13d989daC2f0dEbFf460aC112a837C89BAa7cd",
         "0x78867BbEeF44f2326bF8DDd1941a4439382EF2A7", "2", "0.5"⟩ "t").currentXP = 10 ∧
    ((handleSwapSuccess ⟨true, some "0xabc", true, true, 1, 0, []⟩
        ⟨true, none, some 0, some "0xtx", none⟩
        ⟨"0xae13d989daC2f0dEbFf460aC112a837C89BAa7cd",
         "0x78867BbEeF44f2326bF8DDd1941a4439382EF2A7", "2", "0.5"⟩ "t").questLog.head?.map
      QuestEntry.xpEarned) = some 10 := by
  refine ⟨rfl, rfl, ?_⟩
  rfl

/-- C7 (amended): on a successful response the XP awarded (added to the
ledger and recorded in the new head entry of the quest log) equals the
service-provided `xp_earned` when that value is present and nonzero, and
equals the base value 10 when `xp_earned` is absent or zero (falsy). -/
theorem c7_xp_award_amended (s : AppStateL) (f : SwapForm) (now : String)
    (r : ExecResponse) :
    (∀ n : Nat, r.xp_earned = some n → n ≠ 0 →
      (handleSwapSuccess s r f now).currentXP = s.currentXP + n ∧
      ((handleSwapSuccess s r f now).questLog.head?.map QuestEntry.xpEarned) = some n) ∧
    ((r.xp_earned = none ∨ r.xp_earned = some 0) →
      (handleSwapSuccess s r f now).currentXP = s.currentXP + 10 ∧
      ((handleSwapSuccess s r f now).questLog.head?.map QuestEntry.xpEarned) = some 10) := by
  have hxp : ∀ m : Nat, xpFromResponse r = m →
      (handleSwapSuccess s r f now).currentXP = s.currentXP + m ∧
      ((handleSwapSuccess s r f now).questLog.head?.map QuestEntry.xpEarned) = some m := by
    intro m hm
    unfold handleSwapSuccess
    rw [hm]
    constructor
    · show (addToQuestLog _ _).currentXP = _
      unfold addToQuestLog
      simp only
      exact addXP_currentXP s m
    · rw [addToQuestLog_head]
      rfl
  constructor
  · intro n hn hn0
    exact hxp n (by simp [xpFromResponse, hn, hn0])
  · intro hz
    rcases hz with hz | hz <;> exact hxp 10 (by simp [xpFromResponse, hz])

/-- Witness for C7: a nonzero provided value of 25 is awarded as 25, an
absent value is awarded as 10. -/
theorem c7_xp_award_amended_witness :
    (ExecResponse.xp_earned ⟨true, none, some 25, none, none⟩ = some 25 ∧
      (handleSwapSuccess ⟨true, some "0xabc", true, true, 1, 0, []⟩
          ⟨true, none, some 25, none, none⟩
          ⟨"a", "b", "2", "0.5"⟩ "t").currentXP = 25) ∧
    (ExecResponse.xp_earned ⟨true, none, none, none, none⟩ = none ∧
      (handleSwapSuccess ⟨true, some "0xabc", true, true, 1, 0, []⟩
          ⟨true, none, none, none, none⟩
          ⟨"a", "b", "2", "0.5"⟩ "t").currentXP = 10) :=
  ⟨⟨rfl, ((c7_xp_award_amended ⟨true, some "0xabc", true, true, 1, 0, []⟩
      ⟨"a", "b", "2", "0.5"⟩ "t" ⟨true, none, some 25, none, none⟩).1 25 rfl
      (by decide)).1⟩,
   ⟨rfl, ((c7_xp_award_amended ⟨true, some "0xabc", true, true, 1, 0, []⟩
      ⟨"a", "b", "2", "0.5"⟩ "t" ⟨true, none, none, none, none⟩).2 (Or.inl rfl)).1⟩⟩

/-! ### C4: failed swap executions mutate nothing -/

/-- C4: whenever the network call errors or the service reports failure,
`executeSwap` leaves the whole application state (XP total, level, quest
log included) unchanged and produces a failure outcome; the outcome
carries the service-provided reason when one is present and nonempty,
and the generic reason `Swap failed` when the service omits it.
Conversely, any run that changes the state was a service-reported
success. -/
theorem c4_failure_no_mutation (s : AppStateL) (f : SwapForm) (now : String)
    (fr : Except String ExecResponse)
    (h : (∃ m, fr = Except.error m) ∨ ∃ r, fr = Except.ok r ∧ r.success = false) :
    (executeSwap s f now fr).1 = s ∧
    (executeSwap s f now fr).2.success = false ∧
    (∀ r : ExecResponse, ∀ e : String, fr = Except.ok r → r.error = some e → ¬e.isEmpty →
      (executeSwap s f now fr).2.reason = some e) ∧
    (∀ r : ExecResponse, fr = Except.ok r → r.error = none →
      (executeSwap s f now fr).2.reason = some "Swap failed") ∧
    (∀ s1 : AppStateL, ∀ fr1 : Except String ExecResponse,
      (executeSwap s1 f now fr1).1 ≠ s1 →
      ∃ r1, fr1 = Except.ok r1 ∧ r1.success = true) := by
  have conv : ∀ s1 : AppStateL, ∀ fr1 : Except String ExecResponse,
      (executeSwap s1 f now fr1).1 ≠ s1 →
      ∃ r1, fr1 = Except.ok r1 ∧ r1.success = true := by
    intro s1 fr1 hne
    match fr1 with
    | Except.error m => exact absurd rfl hne
    | Except.ok r1 =>
      by_cases hs : r1.success
      · exact ⟨r1, rfl, hs⟩
      · rw [executeSwap] at hne
        rw [if_neg hs] at hne
        exact absurd rfl hne
  obtain ⟨m, rfl⟩ | ⟨r, rfl, hr⟩ := h
  · refine ⟨rfl, rfl, ?_, ?_, conv⟩
    · intro r e he
      cases he
    · intro r he
      cases he
  · refine ⟨?_, ?_, ?_, ?_, conv⟩
    · rw [executeSwap, if_neg (by simp [hr])]
    · rw [executeSwap, if_neg (by simp [hr])]
    · intro r1 e he herr hne
      injection he with he1
      subst he1
      rw [executeSwap, if_neg (by simp [hr])]
      simp [jsErrOr, herr, hne]
    · intro r1 he herr
      injection he with he1
      subst he1
      rw [executeSwap, if_neg (by simp [hr])]
      simp [jsErrOr, herr]

/-- Witness for C4: a concrete failing response with a reason leaves a
concrete state untouched and surfaces that reason. -/
theorem c4_failure_no_mutation_witness :
    ((∃ m, (Except.ok ⟨false, some "Insufficient liquidity", none, none, none⟩ :
          Except String ExecResponse) = Except.error m) ∨
      ∃ r, (Except.ok ⟨false, some "Insufficient liquidity", none, none, none⟩ :
          Except String ExecResponse) = Except.ok r ∧ r.success = false) ∧
    (executeSwap ⟨true, some "0xabc", true, true, 2, 150, []⟩ ⟨"a", "b", "1", "0.5"⟩ "t"
        (Except.ok ⟨false, some "Insufficient liquidity", none, none, none⟩)).1
      = ⟨true, some "0xabc", true, true, 2, 150, []⟩ ∧
    (executeSwap ⟨true, some "0xabc", true, true, 2, 150, []⟩ ⟨"a", "b", "1", "0.5"⟩ "t"
        (Except.ok ⟨false, some "Insufficient liquidity", none, none, none⟩)).2.success
      = false ∧
    (executeSwap ⟨true, some "0xabc", true, true, 2, 150, []⟩ ⟨"a", "b", "1", "0.5"⟩ "t"
        (Except.ok ⟨false, some "Insufficient liquidity", none, none, none⟩)).2.reason
      = some "Insufficient liquidity" := by
  have h := c4_failure_no_mutation ⟨true, some "0xabc", true, true, 2, 150, []⟩
    ⟨"a", "b", "1", "0.5"⟩ "t"
    (Except.ok ⟨false, some "Insufficient liquidity", none, none, none⟩)
    (Or.inr ⟨⟨false, some "Insufficient liquidity", none, none, none⟩, rfl, rfl⟩)
  exact ⟨Or.inr ⟨⟨false, some "Insufficient liquidity", none, none, none⟩, rfl, rfl⟩,
    h.1, h.2.1, h.2.2.1 ⟨false, some "Insufficient liquidity", none, none, none⟩
      "Insufficient liquidity" rfl rfl (by decide)⟩

/-! ### C5: the synchronous validation gate of handleSwapSubmission -/

/-- C5 counterexample: a submission with amount `0` (and likewise one
whose token addresses resolve to nothing in the registry) passes every
synchronous check of `handleSwapSubmission` and reaches the execute
service, so the claimed positive-amount and registry-resolution gates do
not exist in the submission path. -/
theorem c5_claim_counterexample :
    submissionCheck ⟨true, some "0xabc", true, true, 1, 0, []⟩
      ⟨"0xae13d989daC2f0dEbFf460aC112a837C89BAa7cd",
       "0x78867BbEeF44f2326bF8DDd1941a4439382EF2A7", "0", "0.5"⟩ = none ∧
    (handleSwapSubmission ⟨true, some "0xabc", true, true, 1, 0, []⟩
      ⟨"0xae13d989daC2f0dEbFf460aC112a837C89BAa7cd",
       "0x78867BbEeF44f2326bF8DDd1941a4439382EF2A7", "0", "0.5"⟩ "t"
      (Except.error "net")).2.2 = true ∧
    getTokenSymbolByAddress "0xdead" = none ∧
    submissionCheck ⟨true, some "0xabc", true, true, 1, 0, []⟩
      ⟨"0xdead", "0xbeef", "1", "0.5"⟩ = none ∧
    (handleSwapSubmission ⟨true, some "0xabc", true, true, 1, 0, []⟩
      ⟨"0xdead", "0xbeef", "1", "0.5"⟩ "t" (Except.error "net")).2.2 = true :=
  ⟨rfl, rfl, rfl, rfl, rfl⟩

/-- C5 (amended): the submission path evaluates three synchronous checks
before any external call — wallet connected, all of
fromToken/toToken/amount nonempty, and fromToken distinct from toToken —
and any submission failing one of them is rejected with that check's own
distinct reason, without contacting the execute service and without
touching the state; a submission proceeds to the execute service exactly
when all three pass.  Amount positivity and registry resolvability are
not among the submission checks (they only gate the submit button's
enabled state). -/
theorem c5_validation_amended (s : AppStateL) (f : SwapForm) (now : String)
    (fr : Except String ExecResponse) :
    (s.isConnected = false →
      submissionCheck s f = some "Please connect your wallet first!") ∧
    (s.isConnected = true →
      (truthy f.fromToken = false ∨ truthy f.toToken = false ∨ truthy f.amount = false) →
      submissionCheck s f = some "Please fill all required fields!") ∧
    (s.isConnected = true → truthy f.fromToken = true → truthy f.toToken = true →
      truthy f.amount = true → f.fromToken = f.toToken →
      submissionCheck s f = some "Please select different tokens!") ∧
    (submissionCheck s f = none ↔
      s.isConnected = true ∧ truthy f.fromToken = true ∧ truthy f.toToken = true ∧
        truthy f.amount = true ∧ f.fromToken ≠ f.toToken) ∧
    (∀ msg : String, submissionCheck s f = some msg →
      handleSwapSubmission s f now fr = (s, none, false)) ∧
    ((handleSwapSubmission s f now fr).2.2 = true ↔ submissionCheck s f = none) := by
  refine ⟨?_, ?_, ?_, ?_, ?_, ?_⟩
  · intro hc
    simp [submissionCheck, hc]
  · intro hc hf
    rcases hf with hf | hf | hf <;> simp [submissionCheck, hc, hf]
  · intro hc h1 h2 h3 heq
    simp [submissionCheck, hc, h1, h2, h3, heq]
  · unfold submissionCheck
    cases hc : s.isConnected <;>
      cases h1 : truthy f.fromToken <;>
      cases h2 : truthy f.toToken <;>
      cases h3 : truthy f.amount <;>
      by_cases heq : f.fromToken = f.toToken <;>
      simp [hc, h1, h2, h3, heq]
  · intro msg hmsg
    unfold handleSwapSubmission
    rw [hmsg]
  · unfold handleSwapSubmission
    rcases hk : submissionCheck s f with _ | msg
    · simp
    · simp

/-- Witness for C5: the disconnected state is rejected with the wallet
reason; the same-token example from the spec is rejected with the
distinct-tokens reason; a fully valid form proceeds. -/
theorem c5_validation_amended_witness :
    (AppStateL.isConnected ⟨false, none, false, false, 1, 0, []⟩ = false ∧
      submissionCheck ⟨false, none, false, false, 1, 0, []⟩ ⟨"a", "b", "5", "0.5"⟩
        = some "Please connect your wallet first!") ∧
    (submissionCheck ⟨true, some "0xabc", true, true, 1, 0, []⟩ ⟨"a", "a", "5", "0.5"⟩
        = some "Please select different tokens!") ∧
    ((handleSwapSubmission ⟨true, some "0xabc", true, true, 1, 0, []⟩
        ⟨"a", "b", "5", "0.5"⟩ "t" (Except.error "net")).2.2 = true) :=
  ⟨⟨rfl, (c5_validation_amended ⟨false, none, false, false, 1, 0, []⟩
      ⟨"a", "b", "5", "0.5"⟩ "t" (Except.error "net")).1 rfl⟩,
   (c5_validation_amended ⟨true, some "0xabc", true, true, 1, 0, []⟩
      ⟨"a", "a", "5", "0.5"⟩ "t" (Except.error "net")).2.2.1 rfl rfl rfl rfl rfl,
   (c5_validation_amended ⟨true, some "0xabc", true, true, 1, 0, []⟩
      ⟨"a", "b", "5", "0.5"⟩ "t" (Except.error "net")).2.2.2.2.2.mpr
     ((c5_validation_amended ⟨true, some "0xabc", true, true, 1, 0, []⟩
      ⟨"a", "b", "5", "0.5"⟩ "t" (Except.error "net")).2.2.2.1.mpr
       ⟨rfl, rfl, rfl, rfl, by decide⟩)⟩

/-! ### C2: overlapping swap submissions -/

/-- C2: the code has no in-flight guard.  `AppStateL` (the embedding of
the whole mutable `AppState` object) has no pending/busy field, and the
portion of `executeSwap` that runs before its `await` points mutates no
`AppState` field (it only toggles DOM visibility classes), so a second
`handleSwapSubmission` issued while the first swap is pending runs its
synchronous checks against the very same state and passes them — it is
not rejected.  When both pending executions then resolve successfully,
`handleSwapSuccess` runs twice: from a fresh connected state, two
overlapping submissions of the same valid form with two successful
responses (no `xp_earned`, so base 10 each) yield 20 XP and two quest
log entries, where the claim demands a busy rejection with exactly one
award and one entry. -/
theorem c2_overlapping_submissions_double_award :
    submissionCheck ⟨true, some "0xabc", true, true, 1, 0, []⟩
      ⟨"0xae13d989daC2f0dEbFf460aC112a837C89BAa7cd",
       "0x78867BbEeF44f2326bF8DDd1941a4439382EF2A7", "1", "0.5"⟩ = none ∧
    (handleSwapSuccess
        (handleSwapSuccess ⟨true, some "0xabc", true, true, 1, 0, []⟩
          ⟨true, none, none, some "0xtx1", none⟩
          ⟨"0xae13d989daC2f0dEbFf460aC112a837C89BAa7cd",
           "0x78867BbEeF44f2326bF8DDd1941a4439382EF2A7", "1", "0.5"⟩ "t1")
        ⟨true, none, none, some "0xtx2", none⟩
        ⟨"0xae13d989daC2f0dEbFf460aC112a837C89BAa7cd",
         "0x78867BbEeF44f2326bF8DDd1941a4439382EF2A7", "1", "0.5"⟩ "t2").currentXP = 20 ∧
    (handleSwapSuccess
        (handleSwapSuccess ⟨true, some "0xabc", true, true, 1, 0, []⟩
          ⟨true, none, none, some "0xtx1", none⟩
          ⟨"0xae13d989daC2f0dEbFf460aC112a837C89BAa7cd",
           "0x78867BbEeF44f2326bF8DDd1941a4439382EF2A7", "1", "0.5"⟩ "t1")
        ⟨true, none, none, some "0xtx2", none⟩
        ⟨"0xae13d989daC2f0dEbFf460aC112a837C89BAa7cd",
         "0x78867BbEeF44f2326bF8DDd1941a4439382EF2A7", "1", "0.5"⟩ "t2").questLog.length
      = 2 := by
  refine ⟨rfl, ?_, ?_⟩ <;> decide

/-! ### C3: loading persisted state with absent or malformed data -/

/-- C3: loading never crashes (the embedding of `loadSavedState` is a
total function: `parseInt` never throws and the `JSON.parse` throw is
caught), and absent keys or a malformed quest-log string do leave the
defaults — but a malformed XP string is handed to `parseInt`, so
`tokenQuest_xp = "abc"` leaves `currentXP` as `NaN` (`none`), not the
default 0 the claim requires; `"12abc"` likewise yields 12. -/
theorem c3_malformed_xp_not_defaults :
    (loadSavedState (some "abc") none none none).currentXP = none ∧
    (loadSavedState (some "abc") none none none).currentXP ≠ some 0 ∧
    (loadSavedState (some "12abc") none none none).currentXP = some 12 ∧
    loadSavedState none none none none = ⟨some 0, some 1, []⟩ ∧
    loadSavedState none none (some "not json") none = ⟨some 0, some 1, []⟩ := by
  refine ⟨rfl, by decide, ?_, rfl, rfl⟩
  decide

/-! ### C8: wallet session event transitions -/

/-- C8: an accounts-changed event with an empty list disconnects the
session (no account, not connected); one with a non-empty list connects
with the first account as the new primary; a chain-changed event leaves
`isConnected` and `account` untouched and sets network compliance to
whether the new chain is the required one. -/
theorem c8_session_event_transitions (s : AppStateL) (cid : String)
    (swOk : Bool) (a : String) (rest : List String) (c : String) :
    (handleAccountsChanged s [] cid swOk).isConnected = false ∧
    (handleAccountsChanged s [] cid swOk).account = none ∧
    (handleAccountsChanged s (a :: rest) cid swOk).isConnected = true ∧
    (handleAccountsChanged s (a :: rest) cid swOk).account = some a ∧
    (handleChainChanged s c).isConnected = s.isConnected ∧
    (handleChainChanged s c).account = s.account ∧
    ((handleChainChanged s c).networkCompliant = true ↔ c = chainIdConst) := by
  refine ⟨rfl, rfl, rfl, rfl, rfl, rfl, ?_⟩
  unfold handleChainChanged
  simp

/-- Witness for C8 at concrete events: disconnect on the empty list,
reconnect on a new primary account, compliance toggling on chain
changes. -/
theorem c8_session_event_transitions_witness :
    (handleAccountsChanged ⟨true, some "0xabc", true, true, 3, 250, []⟩ [] "0x61" true).isConnected
      = false ∧
    (handleAccountsChanged ⟨true, some "0xabc", true, true, 3, 250, []⟩
        ["0xdef", "0xabc"] "0x61" true).account = some "0xdef" ∧
    (handleChainChanged ⟨true, some "0xabc", true, true, 3, 250, []⟩ "0x38").account
      = some "0xabc" ∧
    ((handleChainChanged ⟨true, some "0xabc", true, true, 3, 250, []⟩ "0x61").networkCompliant
      = true ↔ "0x61" = chainIdConst) := by
  have h1 := c8_session_event_transitions ⟨true, some "0xabc", true, true, 3, 250, []⟩
    "0x61" true "0xdef" ["0xabc"] "0x38"
  have h2 := c8_session_event_transitions ⟨true, some "0xabc", true, true, 3, 250, []⟩
    "0x61" true "0xdef" ["0xabc"] "0x61"
  exact ⟨h1.1, h1.2.2.2.1, h1.2.2.2.2.2.1, h2.2.2.2.2.2.2⟩

end TokenQuest
